import Mathlib

/-!
Verification of the rigid-body / collision / game-phase core of the scene in
`src/assignment2.js`.  Pure state is embedded shallowly: 4x4 matrices and
3/4-vectors over `ℚ`, bodies as records, the screen-flag machine of
`Assignment2` as a record of booleans.  The matrix utilities live in
`examples/common.js` (tiny-graphics), which is not under `src/`; they are
modelled from the spec (§2: "4x4 affine transform composition, inversion,
decomposition into translation + linear part — assumed available") as the
standard affine matrices.
-/

namespace Asg2

/-- Modelled from the spec: a 3-component vector over exact rationals
(tiny-graphics `vec3`, from the missing `examples/common.js`). -/
@[ext]
structure Vec3 where
  x : ℚ
  y : ℚ
  z : ℚ
deriving DecidableEq, Repr

/-- Modelled from the spec: a 4-component vector (tiny-graphics `vec4`). -/
@[ext]
structure Vec4 where
  x : ℚ
  y : ℚ
  z : ℚ
  w : ℚ
deriving DecidableEq, Repr

/-- Modelled from the spec: a 4x4 matrix held as four rows, as tiny-graphics
`Mat4` stores rows. -/
@[ext]
structure Mat4 where
  r0 : Vec4
  r1 : Vec4
  r2 : Vec4
  r3 : Vec4
deriving DecidableEq, Repr

/-- Dot product of two 4-vectors. -/
def Vec4.dot (a b : Vec4) : ℚ :=
  a.x * b.x + a.y * b.y + a.z * b.z + a.w * b.w

/-- Vec3 dot product (`p.dot(p)` in `Body.intersect_sphere`). -/
def Vec3.dot (a b : Vec3) : ℚ :=
  a.x * b.x + a.y * b.y + a.z * b.z

/-- Componentwise sum (`plus`). -/
def Vec3.plus (a b : Vec3) : Vec3 :=
  ⟨a.x + b.x, a.y + b.y, a.z + b.z⟩

/-- Scalar multiple (`times` on vectors). -/
def Vec3.times (a : Vec3) (s : ℚ) : Vec3 :=
  ⟨a.x * s, a.y * s, a.z * s⟩

/-- Linear interpolation `a.mix(b, s) = (1-s)*a + s*b` of tiny-graphics
vectors. -/
def Vec3.mix (a b : Vec3) (s : ℚ) : Vec3 :=
  ⟨(1 - s) * a.x + s * b.x, (1 - s) * a.y + s * b.y, (1 - s) * a.z + s * b.z⟩

/-- Linear interpolation of 4-vectors, used row-wise by `blend_rotation`. -/
def Vec4.mix (a b : Vec4) (s : ℚ) : Vec4 :=
  ⟨(1 - s) * a.x + s * b.x, (1 - s) * a.y + s * b.y,
   (1 - s) * a.z + s * b.z, (1 - s) * a.w + s * b.w⟩

/-- Homogenize: `p.to4(1)` appends weight 1. -/
def Vec3.to4 (p : Vec3) : Vec4 :=
  ⟨p.x, p.y, p.z, 1⟩

/-- Drop the weight: tiny-graphics `to3` keeps the first three entries. -/
def Vec4.to3 (p : Vec4) : Vec3 :=
  ⟨p.x, p.y, p.z⟩

/-- Column 0 of a row-major matrix. -/
def Mat4.col0 (m : Mat4) : Vec4 := ⟨m.r0.x, m.r1.x, m.r2.x, m.r3.x⟩

/-- Column 1 of a row-major matrix. -/
def Mat4.col1 (m : Mat4) : Vec4 := ⟨m.r0.y, m.r1.y, m.r2.y, m.r3.y⟩

/-- Column 2 of a row-major matrix. -/
def Mat4.col2 (m : Mat4) : Vec4 := ⟨m.r0.z, m.r1.z, m.r2.z, m.r3.z⟩

/-- Column 3 of a row-major matrix: the translation column of an affine
transform. -/
def Mat4.col3 (m : Mat4) : Vec4 := ⟨m.r0.w, m.r1.w, m.r2.w, m.r3.w⟩

/-- Matrix-vector product. -/
def Mat4.mulVec (m : Mat4) (v : Vec4) : Vec4 :=
  ⟨m.r0.dot v, m.r1.dot v, m.r2.dot v, m.r3.dot v⟩

/-- Modelled from the spec: matrix composition (`times` of tiny-graphics,
"4x4 affine transform composition"). -/
def Mat4.times (m n : Mat4) : Mat4 :=
  ⟨⟨m.r0.dot n.col0, m.r0.dot n.col1, m.r0.dot n.col2, m.r0.dot n.col3⟩,
   ⟨m.r1.dot n.col0, m.r1.dot n.col1, m.r1.dot n.col2, m.r1.dot n.col3⟩,
   ⟨m.r2.dot n.col0, m.r2.dot n.col1, m.r2.dot n.col2, m.r2.dot n.col3⟩,
   ⟨m.r3.dot n.col0, m.r3.dot n.col1, m.r3.dot n.col2, m.r3.dot n.col3⟩⟩

/-- Identity matrix (`Mat4.identity`). -/
def Mat4.identity : Mat4 :=
  ⟨⟨1, 0, 0, 0⟩, ⟨0, 1, 0, 0⟩, ⟨0, 0, 1, 0⟩, ⟨0, 0, 0, 1⟩⟩

/-- Translation matrix (`Mat4.translation(x, y, z)`). -/
def Mat4.translation (x y z : ℚ) : Mat4 :=
  ⟨⟨1, 0, 0, x⟩, ⟨0, 1, 0, y⟩, ⟨0, 0, 1, z⟩, ⟨0, 0, 0, 1⟩⟩

/-- Scale matrix (`Mat4.scale(x, y, z)`). -/
def Mat4.scale (x y z : ℚ) : Mat4 :=
  ⟨⟨x, 0, 0, 0⟩, ⟨0, y, 0, 0⟩, ⟨0, 0, z, 0⟩, ⟨0, 0, 0, 1⟩⟩

/-- Modelled from the spec: `Mat4.rotation(angle, x, y, z)` of the missing
`examples/common.js`, the rotation about `spinAxis` (§4.1).  Since the
embedding is over `ℚ`, the cosine `c` and sine `s` of the angle are passed
as parameters and the axis `(i, j, k)` is taken as given (the spec's
invariant, §3, keeps `spinAxis` unit length); the matrix is the standard
axis-angle (Rodrigues) form with zero translation and affine bottom row. -/
def Mat4.rotationCS (c s i j k : ℚ) : Mat4 :=
  ⟨⟨i * i * (1 - c) + c, i * j * (1 - c) - k * s, i * k * (1 - c) + j * s, 0⟩,
   ⟨i * j * (1 - c) + k * s, j * j * (1 - c) + c, j * k * (1 - c) - i * s, 0⟩,
   ⟨i * k * (1 - c) - j * s, j * k * (1 - c) + i * s, k * k * (1 - c) + c, 0⟩,
   ⟨0, 0, 0, 1⟩⟩

/-- The `previous` record a body keeps for interpolation
(`this.previous = {center, rotation}`). -/
@[ext]
structure PrevState where
  center : Vec3
  rotation : Mat4
deriving DecidableEq, Repr

/-- A rigid body, from `class Body` of `src/assignment2.js`.  `id` stands for
JavaScript object identity (each `new Body(...)` is a distinct object;
`this == b` compares identities).  `points` is the body's own shape's
local-space vertex list (`shape.arrays.position`); the rendering-only
`material` field is dropped.  `inverse` is the cached inverse the scene
driver stores on the body before collision queries
(`this.player.inverse = Mat4.inverse(this.player.drawn_location)`). -/
structure Body where
  id : ℕ
  points : List Vec3
  size : Vec3
  center : Vec3
  rotation : Mat4
  previous : PrevState
  linear_velocity : Vec3
  angular_velocity : ℚ
  spin_axis : Vec3
  drawn_location : Mat4
  inverse : Mat4
deriving DecidableEq, Repr

/-- A fresh body as built by `new Body(shape, material, size)`: only the shape
points and size are meaningful; kinematic fields are uninitialized in the
source and are given inert defaults here (`emplace` overwrites them). -/
def Body.make (id : ℕ) (points : List Vec3) (size : Vec3) : Body :=
  { id := id, points := points, size := size,
    center := ⟨0, 0, 0⟩, rotation := Mat4.identity,
    previous := ⟨⟨0, 0, 0⟩, Mat4.identity⟩,
    linear_velocity := ⟨0, 0, 0⟩, angular_velocity := 0,
    spin_axis := ⟨0, 0, 1⟩,
    drawn_location := Mat4.identity, inverse := Mat4.identity }

/-- `Body.intersect_cube(p, margin)`:
`p.every(value => value >= -1 - margin && value <= 1 + margin)`. -/
def Body.intersect_cube (p : Vec3) (margin : ℚ) : Bool :=
  (decide (-1 - margin ≤ p.x) && decide (p.x ≤ 1 + margin)) &&
  (decide (-1 - margin ≤ p.y) && decide (p.y ≤ 1 + margin)) &&
  (decide (-1 - margin ≤ p.z) && decide (p.z ≤ 1 + margin))

/-- `Body.intersect_sphere(p, margin)`: `p.dot(p) < 1 + margin`. -/
def Body.intersect_sphere (p : Vec3) (margin : ℚ) : Bool :=
  decide (Vec3.dot p p < 1 + margin)

/-- `Body.emplace(location_matrix, linear_velocity, angular_velocity,
spin_axis)`: the center is the translation component of the placement, the
rotation is the placement with that translation factored out, `previous`
starts equal to the new state, and `drawn_location` starts as the placement
itself. -/
def Body.emplace (b : Body) (location_matrix : Mat4) (linear_velocity : Vec3)
    (angular_velocity : ℚ) (spin_axis : Vec3) : Body :=
  let c := (location_matrix.mulVec ⟨0, 0, 0, 1⟩).to3
  let r := (Mat4.translation (c.times (-1)).x (c.times (-1)).y
      (c.times (-1)).z).times location_matrix
  { b with
    center := c, rotation := r,
    previous := ⟨c, r⟩,
    drawn_location := location_matrix,
    linear_velocity := linear_velocity,
    angular_velocity := angular_velocity,
    spin_axis := spin_axis }

/-- `Body.advance(time_amount)`: forward-Euler step.  Saves the current state
into `previous`, then `center += linear_velocity * time_amount` and
`rotation.pre_multiply(Mat4.rotation(time_amount * angular_velocity,
...spin_axis))`.  The parameters `c` and `s` stand for the cosine and sine
of `time_amount * angular_velocity` (the trig lives in the missing matrix
library, see `Mat4.rotationCS`). -/
def Body.advance (b : Body) (time_amount c s : ℚ) : Body :=
  { b with
    previous := ⟨b.center, b.rotation⟩,
    center := b.center.plus (b.linear_velocity.times time_amount),
    rotation := (Mat4.rotationCS c s b.spin_axis.x b.spin_axis.y
        b.spin_axis.z).times b.rotation }

/-- `Body.blend_rotation(alpha)`: row-wise linear blend
`prev_row.mix(current_row, alpha)` of the two rotation matrices. -/
def Body.blend_rotation (b : Body) (alpha : ℚ) : Mat4 :=
  ⟨b.previous.rotation.r0.mix b.rotation.r0 alpha,
   b.previous.rotation.r1.mix b.rotation.r1 alpha,
   b.previous.rotation.r2.mix b.rotation.r2 alpha,
   b.previous.rotation.r3.mix b.rotation.r3 alpha⟩

/-- `Body.blend_state(alpha)`:
`drawn_location = Mat4.translation(...previous.center.mix(center, alpha))
  .times(blend_rotation(alpha)).times(Mat4.scale(...size))`. -/
def Body.blend_state (b : Body) (alpha : ℚ) : Body :=
  { b with
    drawn_location :=
      ((Mat4.translation (b.previous.center.mix b.center alpha).x
          (b.previous.center.mix b.center alpha).y
          (b.previous.center.mix b.center alpha).z).times
        (b.blend_rotation alpha)).times
        (Mat4.scale b.size.x b.size.y b.size.z) }

/-- A collider profile, as in `Base_Scene.colliders`: an intersection test,
the profile's own sample-point cloud (`points.arrays.position` of the shape
stored in the profile), and a leeway margin. -/
structure Collider where
  intersect_test : Vec3 → ℚ → Bool
  points : List Vec3
  leeway : ℚ

/-- `Body.check_if_colliding(b, collider)`: nothing collides with itself
(object identity); otherwise `T = this.inverse.times(b.drawn_location)` and
the result is `points.arrays.position.some(p =>
intersect_test(T.times(p.to4(1)).to3(), leeway))`. -/
def Body.check_if_colliding (a b : Body) (collider : Collider) : Bool :=
  if a.id = b.id then false
  else
    let T := a.inverse.times b.drawn_location
    collider.points.any fun p =>
      collider.intersect_test ((T.mulVec p.to4).to3) collider.leeway

/-- Modelled from the spec: the point cloud of the coarse
`defs.Subdivision_Sphere(1)` stored in the `leeway = .5` sphere profile of
`Base_Scene.colliders`.  `defs` lives in the missing `examples/common.js`;
the spec (§3) only fixes that `samplePoints` are boundary points of the unit
sphere at a coarse tessellation, so the six axis-aligned unit points stand
in for that coarse cloud. -/
def sphere_sample_points : List Vec3 :=
  [⟨1, 0, 0⟩, ⟨-1, 0, 0⟩, ⟨0, 1, 0⟩, ⟨0, -1, 0⟩, ⟨0, 0, 1⟩, ⟨0, 0, -1⟩]

/-- The first collider of `Base_Scene.colliders`:
`{intersect_test: Body.intersect_sphere, points: new defs.Subdivision_Sphere(1),
leeway: .5}`. -/
def sphere_collider : Collider :=
  ⟨Body.intersect_sphere, sphere_sample_points, 1/2⟩

/-- The screen/phase flags held by the scene, from the `Base_Scene`
constructor (`this.start = false`, `this.begin = false`, `this.lose = false`,
`this.win = false`, `this.playing = false`, `this.treasure_touch = false`,
`this.guard_touch = false`). -/
@[ext]
structure GameState where
  start : Bool
  begin : Bool
  lose : Bool
  win : Bool
  playing : Bool
  treasure_touch : Bool
  guard_touch : Bool
deriving DecidableEq, Repr

/-- The initial flag state set by the `Base_Scene` constructor. -/
def initial_state : GameState :=
  ⟨false, false, false, false, false, false, false⟩

/-- `Assignment2.start_game()`: when not already playing, raise `begin` and
`playing` and clear `lose`/`win`. -/
def Assignment2.start_game (s : GameState) : GameState :=
  if !s.playing then
    { s with begin := true, lose := false, win := false, playing := true }
  else s

/-- `Assignment2.capture_treasure()`: when `treasure_touch` holds, raise
`win` and clear `begin`/`playing`; otherwise do nothing. -/
def Assignment2.capture_treasure (s : GameState) : GameState :=
  if s.treasure_touch then
    { s with win := true, begin := false, playing := false }
  else s

/-- `Assignment2.lose_game()`: both the `guard_touch` branch and its `else`
perform the same assignments, raising `lose` and clearing
`begin`/`playing`. -/
def Assignment2.lose_game (s : GameState) : GameState :=
  if s.guard_touch then
    { s with lose := true, begin := false, playing := false }
  else
    { s with lose := true, begin := false, playing := false }

/-- The four phases of the spec's state machine, read off the screen flags
the way `Assignment2.draw_room` branches on them. -/
inductive Phase where
  | Start
  | Playing
  | Win
  | Lose
deriving DecidableEq, Repr

/-- The phase the flag state denotes: `draw_room` shows the win screen on
`win`, else the lose screen on `lose`, else the playing room on `playing`;
before any of these the scene is on the start screen. -/
def phase (s : GameState) : Phase :=
  if s.win then Phase.Win
  else if s.lose then Phase.Lose
  else if s.playing then Phase.Playing
  else Phase.Start

/-- The state changes of one `Assignment2.draw_room` frame.  The bodies the
scene re-creates each frame (player, the `this.guards` list, the capture
sphere) are taken as inputs, as is the selected collider.  Faithful to the
source: the `!start` block latches `start` once `begin` is raised; the
`win`/`lose` screens change no flags; in the `playing` branch `begin` is
cleared, then the guard loop calls `lose_game()` for every guard the player
collides with, then `treasure_touch` is set from the capture-sphere check.
Wall collision detection does not occur (the source holds only the comments
"INSERT COLLISION DETECTION HERE" / "INSERT WALL COLLISION DETECTION
HERE?"). -/
def draw_room_step (s : GameState) (player : Body) (guards : List Body)
    (capture_space : Body) (collider : Collider) : GameState :=
  let s0 := if !s.start then (if s.begin then { s with start := true } else s)
    else s
  if s0.win then s0
  else if s0.lose then s0
  else if s0.playing then
    let s1 := if s0.begin then { s0 with begin := false } else s0
    let s2 := guards.foldl
      (fun acc g => if player.check_if_colliding g collider then
        Assignment2.lose_game acc else acc) s1
    if player.check_if_colliding capture_space collider then
      { s2 with treasure_touch := true }
    else
      { s2 with treasure_touch := false }
  else s0

/-- Translation column of an affine matrix as a 3-vector: the spec's
"decomposition into translation + linear part". -/
def Mat4.translation_of (m : Mat4) : Vec3 :=
  m.col3.to3

/-- Iterated `advance`, one `(time_amount, cos, sin)` triple per physics
tick. -/
def Body.advances (b : Body) (steps : List (ℚ × ℚ × ℚ)) : Body :=
  steps.foldl (fun bb t => bb.advance t.1 t.2.1 t.2.2) b

/-- Sphere body at the origin with size `(1, 1, 1)`, its cached `inverse`
freshly computed from its `drawn_location` (the identity), as the scene does
with `this.player.inverse = Mat4.inverse(this.player.drawn_location)`. -/
def body_origin : Body :=
  { (Body.make 0 sphere_sample_points ⟨1, 1, 1⟩).emplace Mat4.identity
      ⟨0, 0, 0⟩ 0 ⟨0, 0, 1⟩ with
    inverse := Mat4.identity }

/-- Sphere body placed via `emplace` at center `(5, 0, 0)`, size
`(1, 1, 1)`. -/
def body_far : Body :=
  (Body.make 1 sphere_sample_points ⟨1, 1, 1⟩).emplace
    (Mat4.translation 5 0 0) ⟨0, 0, 0⟩ 0 ⟨0, 0, 1⟩

/-- Sphere body placed via `emplace` at center `(3/10, 0, 0)`, size
`(1, 1, 1)`. -/
def body_near : Body :=
  (Body.make 2 sphere_sample_points ⟨1, 1, 1⟩).emplace
    (Mat4.translation (3/10) 0 0) ⟨0, 0, 0⟩ 0 ⟨0, 0, 1⟩

/-- Body placed at center `(0, 0, 3/10)`, used as a near capture volume. -/
def capture_near : Body :=
  (Body.make 3 sphere_sample_points ⟨1, 1, 1⟩).emplace
    (Mat4.translation 0 0 (3/10)) ⟨0, 0, 0⟩ 0 ⟨0, 0, 1⟩

/-- Body at center `(5, 0, 0)` whose OWN shape cloud holds the single local
point `(-5, 0, 0)` — a point that lands at the origin of `body_origin`'s
frame, so testing B's own cloud would report a collision. -/
def body_far_own_point : Body :=
  (Body.make 4 [⟨-5, 0, 0⟩] ⟨1, 1, 1⟩).emplace
    (Mat4.translation 5 0 0) ⟨0, 0, 0⟩ 0 ⟨0, 0, 1⟩

/-- Flag state in the middle of play: `start` latched, `begin` consumed,
no win/loss, `playing` on. -/
def playing_state : GameState :=
  ⟨true, false, false, false, true, false, false⟩

/-- The right wall's placement, `model_transform2` of `draw_room`:
`Mat4.translation(50, 25, 0)` then `Mat4.scale(1, 25, 50)`. -/
def wall_right_transform : Mat4 :=
  (Mat4.translation 50 25 0).times (Mat4.scale 1 25 50)

/-- A wall body: the right wall's placement wrapped in a `Body` (the source
never does this — walls are drawn raw and joined to no collision list). -/
def wall_body : Body :=
  (Body.make 11 sphere_sample_points ⟨1, 25, 50⟩).emplace
    wall_right_transform ⟨0, 0, 0⟩ 0 ⟨0, 0, 1⟩

/-- A player standing inside the right wall: placed at `(50, 25, 0)` with
its cached `inverse` the true inverse of its `drawn_location`. -/
def player_at_wall : Body :=
  { (Body.make 10 sphere_sample_points ⟨1, 1, 1⟩).emplace
      (Mat4.translation 50 25 0) ⟨0, 0, 0⟩ 0 ⟨0, 0, 1⟩ with
    inverse := Mat4.translation (-50) (-25) 0 }

/-- The capture sphere's placement from `draw_room`:
`identity · translation(0,5,-45) · translation(0,5,0) · scale(7,7,7)`. -/
def capture_transform : Mat4 :=
  ((Mat4.identity.times (Mat4.translation 0 5 (-45))).times
    (Mat4.translation 0 5 0)).times (Mat4.scale 7 7 7)

/-- The capture-volume body at its scripted place near the treasure. -/
def capture_body : Body :=
  (Body.make 12 sphere_sample_points ⟨1, 1, 1⟩).emplace
    capture_transform ⟨0, -1, 0⟩ 0 ⟨0, 0, 1⟩

/-! Helper lemmas about the matrix model. -/

lemma Mat4.times_assoc (m n p : Mat4) :
    (m.times n).times p = m.times (n.times p) := by
  ext <;> simp [Mat4.times, Vec4.dot, Mat4.col0, Mat4.col1, Mat4.col2,
    Mat4.col3] <;> ring

lemma Mat4.one_times (m : Mat4) : Mat4.identity.times m = m := by
  ext <;> simp [Mat4.times, Mat4.identity, Vec4.dot, Mat4.col0, Mat4.col1,
    Mat4.col2, Mat4.col3]

lemma Mat4.times_one (m : Mat4) : m.times Mat4.identity = m := by
  ext <;> simp [Mat4.times, Mat4.identity, Vec4.dot, Mat4.col0, Mat4.col1,
    Mat4.col2, Mat4.col3]

/-- A two-sided inverse is unique: if `M` is a left inverse of `A` and `N`
a right inverse, they agree. -/
lemma Mat4.inverse_unique (A M N : Mat4)
    (h1 : M.times A = Mat4.identity) (h2 : A.times N = Mat4.identity) :
    M = N := by
  calc M = M.times Mat4.identity := (Mat4.times_one M).symm
    _ = M.times (A.times N) := by rw [h2]
    _ = (M.times A).times N := (Mat4.times_assoc M A N).symm
    _ = Mat4.identity.times N := by rw [h1]
    _ = N := Mat4.one_times N

lemma Mat4.times_col3 (m n : Mat4) : (m.times n).col3 = m.mulVec n.col3 :=
  rfl

lemma Mat4.mulVec_e4 (m : Mat4) : m.mulVec ⟨0, 0, 0, 1⟩ = m.col3 := by
  simp [Mat4.mulVec, Mat4.col3, Vec4.dot]

lemma Mat4.rotationCS_col3 (c s i j k : ℚ) :
    (Mat4.rotationCS c s i j k).col3 = ⟨0, 0, 0, 1⟩ :=
  rfl

lemma Mat4.scale_col3 (x y z : ℚ) : (Mat4.scale x y z).col3 = ⟨0, 0, 0, 1⟩ :=
  rfl

/-! Helper lemmas about body kinematics. -/

lemma Body.emplace_rotation_col3 (b : Body) (L : Mat4) (lv : Vec3) (av : ℚ)
    (axis : Vec3) (hL : L.r3 = ⟨0, 0, 0, 1⟩) :
    (b.emplace L lv av axis).rotation.col3 = ⟨0, 0, 0, 1⟩ := by
  have hw : L.r3.w = 1 := by rw [hL]
  ext <;>
    simp [Body.emplace, Mat4.times, Mat4.translation, Mat4.mulVec, Vec4.dot,
      Vec4.to3, Vec3.times, Mat4.col0, Mat4.col1, Mat4.col2, Mat4.col3, hw]

lemma Body.advance_rotation_col3 (b : Body) (t c s : ℚ)
    (hb : b.rotation.col3 = ⟨0, 0, 0, 1⟩) :
    (b.advance t c s).rotation.col3 = ⟨0, 0, 0, 1⟩ := by
  show ((Mat4.rotationCS c s b.spin_axis.x b.spin_axis.y
      b.spin_axis.z).times b.rotation).col3 = ⟨0, 0, 0, 1⟩
  rw [Mat4.times_col3, hb]
  rw [Mat4.mulVec_e4, Mat4.rotationCS_col3]

lemma Body.advances_rotation_col3 (b : Body) (steps : List (ℚ × ℚ × ℚ))
    (hb : b.rotation.col3 = ⟨0, 0, 0, 1⟩) :
    (b.advances steps).rotation.col3 = ⟨0, 0, 0, 1⟩ := by
  induction steps generalizing b with
  | nil => exact hb
  | cons t ts ih =>
    exact ih _ (Body.advance_rotation_col3 b t.1 t.2.1 t.2.2 hb)

lemma Vec3.mix_zero (a b : Vec3) : a.mix b 0 = a := by
  ext <;> simp [Vec3.mix]

lemma Vec3.mix_one (a b : Vec3) : a.mix b 1 = b := by
  ext <;> simp [Vec3.mix]

lemma Vec4.mix4_zero (a b : Vec4) : a.mix b 0 = a := by
  ext <;> simp [Vec4.mix]

lemma Vec4.mix4_one (a b : Vec4) : a.mix b 1 = b := by
  ext <;> simp [Vec4.mix]

lemma Body.blend_rotation_zero (b : Body) :
    b.blend_rotation 0 = b.previous.rotation := by
  simp [Body.blend_rotation, Vec4.mix4_zero]

lemma Body.blend_rotation_one (b : Body) : b.blend_rotation 1 = b.rotation := by
  simp [Body.blend_rotation, Vec4.mix4_one]

/-- The translation part of `translate(t) · R · S` is `t` whenever `R` and
`S` carry no translation. -/
lemma Mat4.translation_of_TRS (t : Vec3) (R S : Mat4)
    (hR : R.col3 = ⟨0, 0, 0, 1⟩) (hS : S.col3 = ⟨0, 0, 0, 1⟩) :
    Mat4.translation_of (((Mat4.translation t.x t.y t.z).times R).times S)
      = t := by
  unfold Mat4.translation_of
  rw [Mat4.times_col3, hS, Mat4.mulVec_e4, Mat4.times_col3, hR,
    Mat4.mulVec_e4]
  simp [Mat4.translation, Mat4.col3, Vec4.to3]

/-! Helper lemmas about the flag machine. -/

lemma lose_game_eq (s : GameState) :
    Assignment2.lose_game s =
      { s with lose := true, begin := false, playing := false } := by
  rcases s with ⟨st, bg, lo, wi, pl, tt, gt⟩
  cases gt <;> rfl

lemma lose_game_idem (s : GameState) :
    Assignment2.lose_game (Assignment2.lose_game s) =
      Assignment2.lose_game s := by
  rcases s with ⟨st, bg, lo, wi, pl, tt, gt⟩
  cases gt <;> rfl

/-- The guard loop of `draw_room` is `lose_game` exactly when some guard
collides. -/
lemma guard_loop_eq (player : Body) (collider : Collider)
    (guards : List Body) (s : GameState) :
    guards.foldl
      (fun acc g => if player.check_if_colliding g collider then
        Assignment2.lose_game acc else acc) s =
      if guards.any (fun g => player.check_if_colliding g collider) then
        Assignment2.lose_game s else s := by
  induction guards generalizing s with
  | nil => simp
  | cons g gs ih =>
    simp only [List.foldl_cons, List.any_cons, ih]
    rcases Bool.eq_false_or_eq_true (player.check_if_colliding g collider)
      with hg | hg <;>
      rcases Bool.eq_false_or_eq_true
        (gs.any fun g => player.check_if_colliding g collider) with ha | ha <;>
      simp [hg, ha, lose_game_idem]

lemma phase_eq_playing_iff (s : GameState) :
    phase s = Phase.Playing ↔
      s.win = false ∧ s.lose = false ∧ s.playing = true := by
  rcases s with ⟨st, bg, lo, wi, pl, tt, gt⟩
  cases wi <;> cases lo <;> cases pl <;> simp [phase]

/-- One `draw_room` frame from a mid-play flag state: `start` latches from
`begin`, `begin` is consumed, a loss happens exactly when some guard
collides, and `treasure_touch` is set from the capture-volume check.  Walls
appear nowhere. -/
lemma draw_room_step_playing (s : GameState) (player : Body)
    (guards : List Body) (capture_space : Body) (collider : Collider)
    (hwin : s.win = false) (hlose : s.lose = false)
    (hplay : s.playing = true) :
    draw_room_step s player guards capture_space collider =
      ⟨s.start || s.begin, false,
       guards.any (fun g => player.check_if_colliding g collider), false,
       !(guards.any (fun g => player.check_if_colliding g collider)),
       player.check_if_colliding capture_space collider,
       s.guard_touch⟩ := by
  rcases s with ⟨st, bg, lo, wi, pl, tt, gt⟩
  cases wi
  case true => simp at hwin
  cases lo
  case true => simp at hlose
  cases pl
  case false => simp at hplay
  cases st <;> cases bg <;>
    rcases Bool.eq_false_or_eq_true
      (guards.any fun g => player.check_if_colliding g collider)
      with ha | ha <;>
    rcases Bool.eq_false_or_eq_true
      (player.check_if_colliding capture_space collider) with hc | hc <;>
    (simp only [draw_room_step, guard_loop_eq]
     simp [lose_game_eq, ha, hc])

/-! Concrete collision evaluations. -/

lemma check_origin_far :
    body_origin.check_if_colliding body_far sphere_collider = false := by
  norm_num [Body.check_if_colliding, body_origin, body_far, Body.make,
    Body.emplace, Mat4.times, Mat4.mulVec, Vec4.dot, Vec3.to4, Vec4.to3,
    Mat4.translation, Mat4.identity, Body.intersect_sphere, Vec3.dot,
    sphere_collider, sphere_sample_points, Mat4.col0, Mat4.col1, Mat4.col2,
    Mat4.col3, Vec3.times]

lemma check_origin_near :
    body_origin.check_if_colliding body_near sphere_collider = true := by
  norm_num [Body.check_if_colliding, body_origin, body_near, Body.make,
    Body.emplace, Mat4.times, Mat4.mulVec, Vec4.dot, Vec3.to4, Vec4.to3,
    Mat4.translation, Mat4.identity, Body.intersect_sphere, Vec3.dot,
    sphere_collider, sphere_sample_points, Mat4.col0, Mat4.col1, Mat4.col2,
    Mat4.col3, Vec3.times]

lemma check_origin_capture :
    body_origin.check_if_colliding capture_near sphere_collider = true := by
  norm_num [Body.check_if_colliding, body_origin, capture_near, Body.make,
    Body.emplace, Mat4.times, Mat4.mulVec, Vec4.dot, Vec3.to4, Vec4.to3,
    Mat4.translation, Mat4.identity, Body.intersect_sphere, Vec3.dot,
    sphere_collider, sphere_sample_points, Mat4.col0, Mat4.col1, Mat4.col2,
    Mat4.col3, Vec3.times]

/-! The claims. -/

/-- C1: for distinct bodies with `a.inverse` freshly computed as the matrix
inverse of `a.drawn_location`, `check_if_colliding` is true exactly when
some sample point of the profile, transformed by
`inverse(a.drawn_location) · b.drawn_location` and reduced to 3D, passes
`intersect_test` at the profile's leeway (an OR over the profile's points,
realized by the short-circuiting `List.any`). -/
theorem claim_C1 (a b : Body) (collider : Collider) (M : Mat4)
    (hab : a.id ≠ b.id)
    (hM1 : M.times a.drawn_location = Mat4.identity)
    (hM2 : a.drawn_location.times M = Mat4.identity)
    (hfresh1 : a.inverse.times a.drawn_location = Mat4.identity)
    (hfresh2 : a.drawn_location.times a.inverse = Mat4.identity) :
    a.check_if_colliding b collider = true ↔
      ∃ p ∈ collider.points,
        collider.intersect_test
          (((M.times b.drawn_location).mulVec p.to4).to3) collider.leeway
          = true := by
  have hM : M = a.inverse :=
    Mat4.inverse_unique a.drawn_location M a.inverse hM1 hfresh2
  subst hM
  simp only [Body.check_if_colliding, if_neg hab, List.any_eq_true]

/-- C1 witness: the origin body against the near body under the coarse
sphere profile, with the identity as the freshly computed inverse. -/
theorem claim_C1_witness :
    body_origin.id ≠ body_near.id ∧
    (body_origin.check_if_colliding body_near sphere_collider = true ↔
      ∃ p ∈ sphere_collider.points,
        sphere_collider.intersect_test
          (((Mat4.identity.times body_near.drawn_location).mulVec p.to4).to3)
          sphere_collider.leeway = true) :=
  ⟨by decide,
   claim_C1 body_origin body_near sphere_collider Mat4.identity (by decide)
     (Mat4.times_one Mat4.identity) (Mat4.times_one Mat4.identity)
     (Mat4.times_one Mat4.identity) (Mat4.times_one Mat4.identity)⟩

/-- C2 counterexample: `check_if_colliding` returns false for a body whose
OWN shape cloud holds a point that passes the transformed intersection test
— the tested points are the profile's, not body B's. -/
theorem claim_C2_counterexample :
    body_origin.inverse.times body_origin.drawn_location = Mat4.identity ∧
    body_origin.check_if_colliding body_far_own_point sphere_collider
      = false ∧
    ∃ p ∈ body_far_own_point.points,
      sphere_collider.intersect_test
        (((body_origin.inverse.times
          body_far_own_point.drawn_location).mulVec p.to4).to3)
        sphere_collider.leeway = true := by
  refine ⟨Mat4.times_one Mat4.identity, ?_, ⟨⟨-5, 0, 0⟩, ?_, ?_⟩⟩
  · norm_num [Body.check_if_colliding, body_origin, body_far_own_point,
      Body.make, Body.emplace, Mat4.times, Mat4.mulVec, Vec4.dot, Vec3.to4,
      Vec4.to3, Mat4.translation, Mat4.identity, Body.intersect_sphere,
      Vec3.dot, sphere_collider, sphere_sample_points, Mat4.col0, Mat4.col1,
      Mat4.col2, Mat4.col3, Vec3.times]
  · simp [body_far_own_point, Body.emplace, Body.make]
  · norm_num [body_origin, body_far_own_point, Body.make, Body.emplace,
      Mat4.times, Mat4.mulVec, Vec4.dot, Vec3.to4, Vec4.to3,
      Mat4.translation, Mat4.identity, Body.intersect_sphere, Vec3.dot,
      sphere_collider, sphere_sample_points, Mat4.col0, Mat4.col1, Mat4.col2,
      Mat4.col3, Vec3.times]

/-- C2 as amended: the sample points a collision query transforms and tests
are the collider profile's own point cloud; the query's result is
independent of both bodies' own shape clouds. -/
theorem claim_C2 (a b : Body) (collider : Collider)
    (ptsA ptsB : List Vec3) :
    Body.check_if_colliding { a with points := ptsA }
      { b with points := ptsB } collider =
      a.check_if_colliding b collider :=
  rfl

/-- C5: a body never collides with itself — identity (modelled by `id`),
not value equality, decides the self-exclusion. -/
theorem claim_C5 (a : Body) (collider : Collider) :
    a.check_if_colliding a collider = false := by
  simp [Body.check_if_colliding]

/-- C7: sphere body at the origin (size `(1,1,1)`) against a sphere body
`emplace`d at `(5, 0, 0)` does not collide under the `leeway = .5` sphere
profile, while the same setup with the second body at `(3/10, 0, 0)`
does. -/
theorem claim_C7 :
    body_origin.check_if_colliding body_far sphere_collider = false ∧
    body_origin.check_if_colliding body_near sphere_collider = true :=
  ⟨check_origin_far, check_origin_near⟩

/-- C9: `capture_treasure` never changes `lose` (nor `guard_touch` nor
`treasure_touch`); with `treasure_touch` set it forces `win := true`,
`begin := false`, `playing := false` whatever the phase flags are, and with
it clear it changes nothing. -/
theorem claim_C9 (s : GameState) :
    (Assignment2.capture_treasure s).lose = s.lose ∧
    (Assignment2.capture_treasure s).guard_touch = s.guard_touch ∧
    (Assignment2.capture_treasure s).treasure_touch = s.treasure_touch ∧
    (s.treasure_touch = true →
      (Assignment2.capture_treasure s).win = true ∧
      (Assignment2.capture_treasure s).begin = false ∧
      (Assignment2.capture_treasure s).playing = false) ∧
    (s.treasure_touch = false → Assignment2.capture_treasure s = s) := by
  rcases s with ⟨st, bg, lo, wi, pl, tt, gt⟩
  cases tt <;> simp [Assignment2.capture_treasure]

/-- C9 witness: fired after a loss whose final frame still had the treasure
in reach, the capture trigger yields `win` and `lose` set together. -/
theorem claim_C9_witness :
    (Assignment2.capture_treasure ⟨true, false, true, false, false, true,
      false⟩).win = true ∧
    (Assignment2.capture_treasure ⟨true, false, true, false, false, true,
      false⟩).lose = true :=
  ⟨((claim_C9 ⟨true, false, true, false, false, true, false⟩).2.2.2.1
      rfl).1,
   (claim_C9 ⟨true, false, true, false, false, true, false⟩).1⟩

/-- C10: `lose_game` maps every state to the same update — `lose` raised,
`begin` and `playing` cleared, everything else (`win`, `treasure_touch`,
`guard_touch`, `start`) untouched — independently of `guard_touch`, whose
two branches assign identically. -/
theorem claim_C10 (s : GameState) :
    Assignment2.lose_game s =
      { s with lose := true, begin := false, playing := false } :=
  lose_game_eq s

/-- C3 as amended: while the phase is Playing, a collision of the player
with any guard body moves the phase to Lose within that same frame, with no
external trigger; a single colliding guard suffices.  (Wall bodies are not
part of the frame's collision checks — see the counterexample.) -/
theorem claim_C3 (s : GameState) (player : Body) (guards : List Body)
    (capture_space : Body) (collider : Collider)
    (hp : phase s = Phase.Playing)
    (hc : ∃ g ∈ guards, player.check_if_colliding g collider = true) :
    phase (draw_room_step s player guards capture_space collider)
      = Phase.Lose := by
  obtain ⟨hwin, hlose, hplay⟩ := (phase_eq_playing_iff s).mp hp
  have hany : (guards.any fun g => player.check_if_colliding g collider)
      = true := List.any_eq_true.mpr hc
  rw [draw_room_step_playing s player guards capture_space collider hwin
    hlose hplay]
  simp [phase, hany]

/-- C3 witness: mid-play, a guard overlapping the player flips the frame's
phase to Lose. -/
theorem claim_C3_witness :
    phase playing_state = Phase.Playing ∧
    phase (draw_room_step playing_state body_origin [body_near] capture_near
      sphere_collider) = Phase.Lose :=
  ⟨by decide,
   claim_C3 playing_state body_origin [body_near] capture_near
     sphere_collider (by decide) ⟨body_near, by simp, check_origin_near⟩⟩

/-- C3 counterexample: mid-play, a player standing inside the right wall —
its collision with the wall's volume holds under the designated profile —
stays in Playing after the frame: wall collisions trigger no transition,
because `draw_room` checks only `this.guards`. -/
theorem claim_C3_counterexample :
    phase playing_state = Phase.Playing ∧
    player_at_wall.inverse.times player_at_wall.drawn_location
      = Mat4.identity ∧
    player_at_wall.check_if_colliding wall_body sphere_collider = true ∧
    phase (draw_room_step playing_state player_at_wall [] capture_body
      sphere_collider) = Phase.Playing := by
  refine ⟨by decide, ?_, ?_, ?_⟩
  · norm_num [player_at_wall, Body.make, Body.emplace, Mat4.times,
      Mat4.mulVec, Vec4.dot, Vec3.to4, Vec4.to3, Mat4.translation,
      Mat4.identity, Mat4.col0, Mat4.col1, Mat4.col2, Mat4.col3, Vec3.times,
      Mat4.ext_iff, Vec4.ext_iff]
  · norm_num [Body.check_if_colliding, player_at_wall, wall_body,
      wall_right_transform, Body.make, Body.emplace, Mat4.times, Mat4.mulVec,
      Vec4.dot, Vec3.to4, Vec4.to3, Mat4.translation, Mat4.scale,
      Mat4.identity, Body.intersect_sphere, Vec3.dot, sphere_collider,
      sphere_sample_points, Mat4.col0, Mat4.col1, Mat4.col2, Mat4.col3,
      Vec3.times]
  · rw [draw_room_step_playing playing_state player_at_wall []
      capture_body sphere_collider rfl rfl rfl]
    have hcap : player_at_wall.check_if_colliding capture_body
        sphere_collider = false := by
      norm_num [Body.check_if_colliding, player_at_wall, capture_body,
        capture_transform, Body.make, Body.emplace, Mat4.times, Mat4.mulVec,
        Vec4.dot, Vec3.to4, Vec4.to3, Mat4.translation, Mat4.scale,
        Mat4.identity, Body.intersect_sphere, Vec3.dot, sphere_collider,
        sphere_sample_points, Mat4.col0, Mat4.col1, Mat4.col2, Mat4.col3,
        Vec3.times]
    simp [phase, playing_state, hcap]

/-- C4: the spec's phase-machine scenario.  From the initial state the begin
trigger yields Playing with `win = lose = false`; a frame with a colliding
guard yields Lose even when the capture volume is simultaneously in reach
and the capture trigger is never fired (`win` stays false, `treasure_touch`
is set); a frame with no colliding guard but the capture volume in reach
leaves Playing with `treasure_touch` set, and firing the capture trigger
then yields Win. -/
theorem claim_C4 (player : Body) (guards_lose guards_win : List Body)
    (capture_space : Body) (collider : Collider)
    (hg : ∃ g ∈ guards_lose, player.check_if_colliding g collider = true)
    (hng : ∀ g ∈ guards_win, player.check_if_colliding g collider = false)
    (hcap : player.check_if_colliding capture_space collider = true) :
    (phase (Assignment2.start_game initial_state) = Phase.Playing ∧
      (Assignment2.start_game initial_state).win = false ∧
      (Assignment2.start_game initial_state).lose = false) ∧
    (phase (draw_room_step (Assignment2.start_game initial_state) player
        guards_lose capture_space collider) = Phase.Lose ∧
      (draw_room_step (Assignment2.start_game initial_state) player
        guards_lose capture_space collider).win = false ∧
      (draw_room_step (Assignment2.start_game initial_state) player
        guards_lose capture_space collider).treasure_touch = true) ∧
    ((draw_room_step (Assignment2.start_game initial_state) player
        guards_win capture_space collider).treasure_touch = true ∧
      phase (draw_room_step (Assignment2.start_game initial_state) player
        guards_win capture_space collider) = Phase.Playing ∧
      phase (Assignment2.capture_treasure (draw_room_step
        (Assignment2.start_game initial_state) player guards_win
        capture_space collider)) = Phase.Win) := by
  have hany : (guards_lose.any fun g => player.check_if_colliding g collider)
      = true := List.any_eq_true.mpr hg
  have hany0 : (guards_win.any fun g => player.check_if_colliding g collider)
      = false := by
    rcases Bool.eq_false_or_eq_true
      (guards_win.any fun g => player.check_if_colliding g collider)
      with h | h
    · obtain ⟨g, hgm, hgc⟩ := List.any_eq_true.mp h
      rw [hng g hgm] at hgc
      exact absurd hgc (by simp)
    · exact h
  have hs1 : Assignment2.start_game initial_state =
      ⟨false, true, false, false, true, false, false⟩ := by decide
  rw [hs1]
  rw [draw_room_step_playing _ player guards_lose capture_space collider rfl
    rfl rfl]
  rw [draw_room_step_playing _ player guards_win capture_space collider rfl
    rfl rfl]
  refine ⟨by decide, ⟨?_, ?_, ?_⟩, ⟨?_, ?_, ?_⟩⟩
  · simp [phase, hany]
  · simp
  · simp [hcap]
  · simp [hcap]
  · simp [phase, hany0]
  · simp [Assignment2.capture_treasure, phase, hany0, hcap]

/-- C6: for a body placed by `emplace` and advanced once with `dt = 1`,
`blend_state(0)` rebuilds a drawn location whose translation and scale are
the pre-advance placement's (`translate(center₀) · rotation₀ · scale(size)`)
and `blend_state(1)` the post-advance state's; in general `blend_state α`
is `translate(lerp(previous.center, center, α)) · blend_rotation(α) ·
scale(size)`. -/
theorem claim_C6 (b : Body) (L : Mat4) (lv : Vec3) (av c s : ℚ)
    (axis : Vec3) (b0 b1 : Body)
    (hL : L.r3 = ⟨0, 0, 0, 1⟩)
    (hb0 : b0 = Body.emplace b L lv av axis)
    (hb1 : b1 = b0.advance 1 c s) :
    ((b1.blend_state 0).drawn_location =
      ((Mat4.translation b0.center.x b0.center.y b0.center.z).times
        b0.rotation).times (Mat4.scale b0.size.x b0.size.y b0.size.z)) ∧
    Mat4.translation_of (b1.blend_state 0).drawn_location = b0.center ∧
    ((b1.blend_state 1).drawn_location =
      ((Mat4.translation b1.center.x b1.center.y b1.center.z).times
        b1.rotation).times (Mat4.scale b1.size.x b1.size.y b1.size.z)) ∧
    Mat4.translation_of (b1.blend_state 1).drawn_location = b1.center ∧
    (∀ alpha : ℚ, (b1.blend_state alpha).drawn_location =
      ((Mat4.translation (b1.previous.center.mix b1.center alpha).x
          (b1.previous.center.mix b1.center alpha).y
          (b1.previous.center.mix b1.center alpha).z).times
        (b1.blend_rotation alpha)).times
        (Mat4.scale b1.size.x b1.size.y b1.size.z)) := by
  subst hb1
  subst hb0
  have hR0 : (Body.emplace b L lv av axis).rotation.col3 = ⟨0, 0, 0, 1⟩ :=
    Body.emplace_rotation_col3 b L lv av axis hL
  have hR1 : ((Body.emplace b L lv av axis).advance 1 c s).rotation.col3
      = ⟨0, 0, 0, 1⟩ :=
    Body.advance_rotation_col3 _ 1 c s hR0
  have e0 : ((((Body.emplace b L lv av axis).advance 1 c s).blend_state
      0).drawn_location) =
      ((Mat4.translation (Body.emplace b L lv av axis).center.x
        (Body.emplace b L lv av axis).center.y
        (Body.emplace b L lv av axis).center.z).times
        (Body.emplace b L lv av axis).rotation).times
        (Mat4.scale (Body.emplace b L lv av axis).size.x
          (Body.emplace b L lv av axis).size.y
          (Body.emplace b L lv av axis).size.z) := by
    simp [Body.blend_state, Body.blend_rotation, Body.advance, Vec3.mix_zero,
      Vec4.mix4_zero]
  have e1 : ((((Body.emplace b L lv av axis).advance 1 c s).blend_state
      1).drawn_location) =
      ((Mat4.translation
        ((Body.emplace b L lv av axis).advance 1 c s).center.x
        ((Body.emplace b L lv av axis).advance 1 c s).center.y
        ((Body.emplace b L lv av axis).advance 1 c s).center.z).times
        ((Body.emplace b L lv av axis).advance 1 c s).rotation).times
        (Mat4.scale ((Body.emplace b L lv av axis).advance 1 c s).size.x
          ((Body.emplace b L lv av axis).advance 1 c s).size.y
          ((Body.emplace b L lv av axis).advance 1 c s).size.z) := by
    simp [Body.blend_state, Body.blend_rotation, Vec3.mix_one, Vec4.mix4_one]
  refine ⟨e0, ?_, e1, ?_, fun alpha => rfl⟩
  · rw [e0]
    exact Mat4.translation_of_TRS _ _ _ hR0 (Mat4.scale_col3 _ _ _)
  · rw [e1]
    exact Mat4.translation_of_TRS _ _ _ hR1 (Mat4.scale_col3 _ _ _)

/-- C6 witness: a body placed at `(1, 2, 3)` moving with velocity
`(4, 0, 0)`, advanced one unit tick: the blend endpoints reproduce the
pre-advance and post-advance translations. -/
theorem claim_C6_witness :
    (Mat4.translation 1 2 3).r3 = (⟨0, 0, 0, 1⟩ : Vec4) ∧
    Mat4.translation_of ((((Body.make 6 [] ⟨2, 2, 2⟩).emplace
        (Mat4.translation 1 2 3) ⟨4, 0, 0⟩ 0 ⟨0, 0, 1⟩).advance 1 1
        0).blend_state 0).drawn_location
      = ((Body.make 6 [] ⟨2, 2, 2⟩).emplace (Mat4.translation 1 2 3)
        ⟨4, 0, 0⟩ 0 ⟨0, 0, 1⟩).center ∧
    Mat4.translation_of ((((Body.make 6 [] ⟨2, 2, 2⟩).emplace
        (Mat4.translation 1 2 3) ⟨4, 0, 0⟩ 0 ⟨0, 0, 1⟩).advance 1 1
        0).blend_state 1).drawn_location
      = (((Body.make 6 [] ⟨2, 2, 2⟩).emplace (Mat4.translation 1 2 3)
        ⟨4, 0, 0⟩ 0 ⟨0, 0, 1⟩).advance 1 1 0).center :=
  ⟨rfl,
   (claim_C6 (Body.make 6 [] ⟨2, 2, 2⟩) (Mat4.translation 1 2 3) ⟨4, 0, 0⟩
     0 1 0 ⟨0, 0, 1⟩ _ _ rfl rfl rfl).2.1,
   (claim_C6 (Body.make 6 [] ⟨2, 2, 2⟩) (Mat4.translation 1 2 3) ⟨4, 0, 0⟩
     0 1 0 ⟨0, 0, 1⟩ _ _ rfl rfl rfl).2.2.2.1⟩

/-- C8: after `emplace` of an affine placement, and after any sequence of
`advance` steps, the body's `rotation` carries zero translation — its
translation column stays `(0, 0, 0, 1)`, so the body's translation lives
solely in `center`. -/
theorem claim_C8 (b : Body) (L : Mat4) (lv : Vec3) (av : ℚ) (axis : Vec3)
    (steps : List (ℚ × ℚ × ℚ)) (hL : L.r3 = ⟨0, 0, 0, 1⟩) :
    ((Body.emplace b L lv av axis).advances steps).rotation.col3
      = ⟨0, 0, 0, 1⟩ ∧
    Mat4.translation_of
      ((Body.emplace b L lv av axis).advances steps).rotation
      = ⟨0, 0, 0⟩ := by
  have h := Body.advances_rotation_col3 (Body.emplace b L lv av axis) steps
    (Body.emplace_rotation_col3 b L lv av axis hL)
  refine ⟨h, ?_⟩
  simp [Mat4.translation_of, h, Vec4.to3]

/-- C8 witness: a body placed at `(1, 2, 3)` and advanced one tick keeps a
rotation with zero translation. -/
theorem claim_C8_witness :
    (Mat4.translation 1 2 3).r3 = (⟨0, 0, 0, 1⟩ : Vec4) ∧
    ((Body.emplace (Body.make 7 [] ⟨2, 2, 2⟩) (Mat4.translation 1 2 3)
      ⟨4, 0, 0⟩ 0 ⟨0, 0, 1⟩).advances [(1, 1, 0)]).rotation.col3
      = ⟨0, 0, 0, 1⟩ :=
  ⟨rfl,
   (claim_C8 (Body.make 7 [] ⟨2, 2, 2⟩) (Mat4.translation 1 2 3) ⟨4, 0, 0⟩
     0 ⟨0, 0, 1⟩ [(1, 1, 0)] rfl).1⟩

/-- C4 witness: the scenario instantiated with the origin player, one
overlapping guard for the losing frame, one distant guard for the winning
frame, and the near capture volume. -/
theorem claim_C4_witness :
    body_origin.check_if_colliding body_near sphere_collider = true ∧
    body_origin.check_if_colliding body_far sphere_collider = false ∧
    body_origin.check_if_colliding capture_near sphere_collider = true ∧
    phase (draw_room_step (Assignment2.start_game initial_state) body_origin
      [body_near] capture_near sphere_collider) = Phase.Lose ∧
    phase (Assignment2.capture_treasure (draw_room_step
      (Assignment2.start_game initial_state) body_origin [body_far]
      capture_near sphere_collider)) = Phase.Win := by
  have h := claim_C4 body_origin [body_near] [body_far] capture_near
    sphere_collider ⟨body_near, by simp, check_origin_near⟩
    (by intro g hgm; rw [List.mem_singleton.mp hgm]; exact check_origin_far)
    check_origin_capture
  exact ⟨check_origin_near, check_origin_far, check_origin_capture,
    h.2.1.1, h.2.2.2.2⟩

end Asg2
